import Mathlib

/-!
Verification of the GP4U provider agent (apps/provider-agent/src).

Shallow embedding conventions:
  - Python str is modeled as Lean String; slicing and character filtering are
    performed on the underlying character list (String.data), which matches
    Python code-point semantics.
  - Python float fields of the job manifest are modeled as exact rationals.
  - Python int is modeled as Int (or Nat where the source value is a count).
  - External effects (docker subprocesses, HTTP posts) are modeled by an
    environment record supplying the outcomes, and an event trace recording
    which side effects were requested, in order.
  - A Python function that raises is modeled as returning Except.error.
-/

namespace GP4U

/-! Section: Python primitives -/

/-- Python string slicing s[:n], by code points. -/
def takeStr (n : Nat) (s : String) : String :=
  String.mk (s.data.take n)

/-- Python string slicing s[n:], by code points. -/
def dropStr (n : Nat) (s : String) : String :=
  String.mk (s.data.drop n)

/-- Python string slicing s[-n:]: the last n code points (whole string if shorter). -/
def lastStr (n : Nat) (s : String) : String :=
  String.mk (s.data.drop (s.data.length - n))

/-- Python s.startswith(pat). -/
def pyStartsWith (s pat : String) : Bool :=
  pat.data.isPrefixOf s.data

/-- Python str.lower restricted to ASCII. The digest validation in the source
only accepts ASCII hex characters afterwards, and no non-ASCII character has an
ASCII lowercase image under Python semantics, so the restriction does not
change any validation outcome. -/
def pyLower (s : String) : String :=
  String.mk (s.data.map Char.toLower)

/-- Whitespace characters stripped by Python str.strip(). -/
def pySpace (c : Char) : Bool :=
  c = ' ' || c = '\t' || c = '\n' || c = '\r' || c = '\x0b' || c = '\x0c'

/-- Python str.strip(): remove leading and trailing whitespace. -/
def pyStrip (s : String) : String :=
  String.mk (((s.data.dropWhile pySpace).reverse.dropWhile pySpace).reverse)

/-- Python int(x) applied to a rational: truncation toward zero.
For a reduced rational, truncating division of numerator by denominator. -/
def ratTrunc (q : ℚ) : ℤ :=
  q.num.tdiv q.den

/-- Decimal digit character, as produced by Python str() on an int. -/
def decDigit (d : Nat) : Char :=
  Char.ofNat (48 + d)

/-- Decimal digits of n, least significant first; fuel-based so that the
kernel can reduce it. The fuel n is always sufficient. -/
def natDigitsRevAux : Nat → Nat → List Char
  | 0, _ => []
  | _ + 1, 0 => []
  | fuel + 1, n + 1 => decDigit ((n + 1) % 10) :: natDigitsRevAux fuel ((n + 1) / 10)

/-- Decimal rendering of a natural number, as Python str(). -/
def natStr (n : Nat) : List Char :=
  if n = 0 then ['0'] else (natDigitsRevAux n n).reverse

/-- Python str() of an int: optional minus sign followed by decimal digits. -/
def pyIntStr (i : ℤ) : String :=
  if i < 0 then String.mk ('-' :: natStr (-i).toNat) else String.mk (natStr i.toNat)

/-- Banker rounding of a rational to an integer, as Python round(x). -/
def roundHalfEven (x : ℚ) : ℤ :=
  if x - ⌊x⌋ < 1 / 2 then ⌊x⌋
  else if (1 / 2 : ℚ) < x - ⌊x⌋ then ⌊x⌋ + 1
  else if ⌊x⌋ % 2 = 0 then ⌊x⌋ else ⌊x⌋ + 1

/-- Python round(x, 6) on a rational. -/
def pyRound6 (q : ℚ) : ℚ :=
  ((roundHalfEven (q * 1000000) : ℤ) : ℚ) / 1000000

/-- The Python float literal 1.1 (exact value used by the rational model;
the spec claims are about the exact arithmetic). -/
def onePointOne : ℚ := 11 / 10

/-! Section: Job manifest (job_runner.py, JobManifest) -/

/-- JobManifest from job_runner.py. Python float fields are rationals,
the env dict is an association list in iteration order. -/
structure JobManifest where
  job_id : String
  subject_id : String
  gpu_id : String
  gpu_index : ℤ
  docker_image : String
  docker_image_sha256 : String
  command : List String
  env : List (String × String)
  input_data_url : Option String
  output_bucket : String
  declared_framework : String
  vram_allocated_gb : ℚ
  ram_limit_gb : ℚ
  expected_duration_h : ℚ
  power_cap_watts : ℚ
deriving DecidableEq, Repr

/-! Section: Compute pattern inference (telemetry.py, TelemetryCollector._infer_pattern) -/

/-- TelemetryCollector._infer_pattern: deterministic decision list. -/
def inferPattern (gpu_util : ℚ) (outbound : ℤ) (unique_ips : ℕ) (suspicious : List String) : String :=
  if suspicious ≠ [] then "CRYPTO_MINING"
  else if gpu_util > 85 ∧ outbound < 5000000 then "TRAINING"
  else if unique_ips > 30 ∧ gpu_util < 20 then "NETWORK_HEAVY"
  else if gpu_util < 5 then "IDLE"
  else "INFERENCE"

/-- The decision list exactly as the spec states it (for the refinement check
of claim C9): evaluated top-down, first match wins. -/
def inferPatternSpec (gpu_util : ℚ) (outbound : ℤ) (unique_ips : ℕ) (suspicious : List String) : String :=
  if suspicious ≠ [] then "CRYPTO_MINING"
  else if 85 < gpu_util ∧ outbound < 5000000 then "TRAINING"
  else if 30 < unique_ips ∧ gpu_util < 20 then "NETWORK_HEAVY"
  else if gpu_util < 5 then "IDLE"
  else "INFERENCE"

/-! Section: Network telemetry (telemetry.py, TelemetryCollector._collect_network) -/

/-- One psutil connection: status and optional remote address (ip, port). -/
structure NetConn where
  status : String
  raddr : Option (String × ℤ)
deriving DecidableEq, Repr

/-- psutil.net_io_counters() snapshot. -/
structure NetCounters where
  bytes_sent : ℤ
  bytes_recv : ℤ
deriving DecidableEq, Repr

/-- The network signal group of the telemetry payload. -/
structure NetSignals where
  outbound_bytes_per_sec : ℤ
  inbound_bytes_per_sec : ℤ
  active_connections : ℕ
  unique_dst_ips : ℕ
  dns_queries_per_min : ℕ
  suspicious_destinations : List String
deriving DecidableEq, Repr

/-- TelemetryCollector._is_suspicious: the threat-intel lookup is a stub and
always returns False in the source. -/
def isSuspiciousIp (_ip : String) : Bool :=
  false

/-- TelemetryCollector._collect_network. The psutil inputs are supplied by the
caller; none means psutil raised and the zeroed fallback record is returned.
The Python set of destination ips is modeled as a deduplicated list. -/
def collectNetwork (conns : Option (List NetConn)) (net prev : NetCounters) : NetSignals :=
  match conns with
  | none =>
      { outbound_bytes_per_sec := 0
        inbound_bytes_per_sec := 0
        active_connections := 0
        unique_dst_ips := 0
        dns_queries_per_min := 0
        suspicious_destinations := [] }
  | some cs =>
      let active := cs.filter (fun c => c.status = "ESTABLISHED")
      let dstIps := (active.filterMap (fun c => c.raddr.map Prod.fst)).dedup
      let suspicious := dstIps.filter (fun ip => isSuspiciousIp ip)
      let deltaOut := max 0 (net.bytes_sent - prev.bytes_sent)
      let deltaIn := max 0 (net.bytes_recv - prev.bytes_recv)
      let dnsConns := cs.filter (fun c => match c.raddr with
        | some r => r.2 = 53
        | none => false)
      { outbound_bytes_per_sec := deltaOut / 10
        inbound_bytes_per_sec := deltaIn / 10
        active_connections := active.length
        unique_dst_ips := dstIps.length
        dns_queries_per_min := dnsConns.length * 6
        suspicious_destinations := suspicious }

/-- The fields of TelemetryCollector._build_payload that claim C10 is about:
the suspicious destination list and the inferred compute pattern, derived from
the gpu and network signal groups exactly as the source does. -/
structure PayloadPatternFields where
  suspicious_destinations : List String
  gpu_compute_pattern : String
deriving DecidableEq, Repr

/-- The pattern-relevant part of TelemetryCollector._build_payload. -/
def buildPayloadPattern (gpu_util : ℚ) (net : NetSignals) : PayloadPatternFields :=
  { suspicious_destinations := net.suspicious_destinations
    gpu_compute_pattern :=
      inferPattern gpu_util net.outbound_bytes_per_sec net.unique_dst_ips
        net.suspicious_destinations }

/-! Section: Energy accounting (telemetry.py, _collect_gpu; job_runner.py, run) -/

/-- One watchdog-tick GPU sample: some power means pynvml succeeded and the
accumulator gains power multiplied by the 10 second interval; none means the
sample failed and the accumulator is unchanged. -/
def gpuSampleEnergy (acc : ℚ) (sample : Option ℚ) : ℚ :=
  match sample with
  | some power => acc + power * 10
  | none => acc

/-- Energy accumulator after a sequence of samples, starting from 0.0. -/
def energyAfter (samples : List (Option ℚ)) : ℚ :=
  samples.foldl gpuSampleEnergy 0

/-! Section: Environment sanitization (job_runner.py, JobRunner._build_env_args) -/

/-- Non-ASCII characters that the model recognizes as alphanumeric. Python
str.isalnum is Unicode-aware; the model covers the full ASCII range exactly
and a sample of non-ASCII alphanumeric characters (a full Unicode table is
out of scope; characters outside this sample are treated as non-alphanumeric,
which only makes the model MISS further non-ASCII keys the source keeps). -/
def nonAsciiAlnumSample : List Char :=
  ['é', 'ß', 'Ω', '²', '١']

/-- Python c.isalnum() as used on env keys. -/
def pyIsAlnum (c : Char) : Bool :=
  c.isAlphanum || nonAsciiAlnumSample.contains c

/-- The key sanitizer of _build_env_args: keep characters with c.isalnum()
or c equal to the underscore. -/
def sanitizeKey (k : String) : String :=
  String.mk (k.data.filter (fun c => pyIsAlnum c || c = '_'))

/-- The value sanitizer of _build_env_args: drop NUL, LF and CR (the three
single-character replace calls), then truncate to 4096 characters. -/
def sanitizeVal (v : String) : String :=
  String.mk ((v.data.filter (fun c => c ≠ '\x00' ∧ c ≠ '\n' ∧ c ≠ '\r')).take 4096)

/-- JobRunner._build_env_args: per entry, drop it if the sanitized key is
empty, otherwise contribute a pair of arguments. -/
def buildEnvArgs : List (String × String) → List String
  | [] => []
  | (k, v) :: rest =>
      let cleanKey := sanitizeKey k
      if cleanKey = "" then buildEnvArgs rest
      else "--env" :: (cleanKey ++ "=" ++ sanitizeVal v) :: buildEnvArgs rest

/-! Section: Image verification and container run (job_runner.py, JobRunner) -/

/-- The lowercase hex alphabet accepted for the digest. -/
def hexChars : List Char :=
  "0123456789abcdef".data

/-- The digest after str(), .lower() and .strip(), as computed at the top of
_pull_and_verify_image. -/
def normDigest (m : JobManifest) : String :=
  pyStrip (pyLower m.docker_image_sha256)

/-- A normalized digest that matches sha256:[0-9a-f]X64 (the validation the
source performs: sha256: introducer, then exactly 64 lowercase hex chars). -/
def WellFormedDigest (s : String) : Prop :=
  pyStartsWith s "sha256:" = true ∧ (dropStr 7 s).data.length = 64 ∧
    ∀ c ∈ (dropStr 7 s).data, c ∈ hexChars

instance (s : String) : Decidable (WellFormedDigest s) := by
  unfold WellFormedDigest; infer_instance

/-- The deterministic container name gp4u-<first 12 chars of job_id>. -/
def gp4uName (m : JobManifest) : String :=
  "gp4u-" ++ takeStr 12 m.job_id

/-- Side effects the runner can request, in the order requested. -/
inductive Event where
  | dockerPull (ref : String)
  | containerCreate (cmd : List String) (timeoutSec : ℤ)
  | dockerKill (name : String)
  | telemetryPost (jobId : String)
  | completionPatch (id status : String) (energy_kwh : ℚ)
deriving DecidableEq, Repr

/-- One watchdog tick: the GPU power sample (none if pynvml failed) and the
kill_job flag of the platform response to the telemetry POST. -/
structure WatchTick where
  power : Option ℚ
  killJob : Bool
deriving DecidableEq, Repr

/-- What the docker run invocation did: normal exit with captured output,
subprocess.TimeoutExpired, or another exception. -/
inductive ContainerOutcome where
  | exited (code : ℤ) (stdout stderr : String)
  | timedOut
  | errored (msg : String)
deriving DecidableEq, Repr

/-- The external world a job run interacts with: docker pull results, the
docker run outcome, and the watchdog ticks that occur while the container
runs. -/
structure RunEnv where
  pullExit : String → ℤ
  pullStderr : String → String
  outcome : ContainerOutcome
  watchdogTicks : List WatchTick

/-- JobRunner._watchdog_loop: each tick collects and posts one telemetry
sample; on a kill_job response it kills the container by name and stops. -/
def watchdogRun (m : JobManifest) : List WatchTick → List Event
  | [] => []
  | t :: ts =>
      Event.telemetryPost m.job_id ::
        (if t.killJob then [Event.dockerKill (gp4uName m)] else watchdogRun m ts)

/-- The GPU power samples the watchdog accumulates into the energy counter:
every tick up to and including the first kill tick contributes its sample. -/
def executedPowers : List WatchTick → List (Option ℚ)
  | [] => []
  | t :: ts => t.power :: (if t.killJob then [] else executedPowers ts)

/-- JobRunner._pull_and_verify_image. Returns the digest-pinned reference or
the RuntimeError message; the trace records the docker pull if one is run. -/
def pullAndVerifyImage (env : RunEnv) (m : JobManifest) :
    Except String String × List Event :=
  let expectedSha := normDigest m
  if expectedSha = "" ∨ ¬ pyStartsWith expectedSha "sha256:" = true then
    (Except.error ("[runner] docker_image_sha256 must start with 'sha256:' - got '"
      ++ takeStr 32 expectedSha ++ "'"), [])
  else
    let hexPart := dropStr 7 expectedSha
    if ¬ (hexPart.data.length = 64 ∧ ∀ c ∈ hexPart.data, c ∈ hexChars) then
      (Except.error "[runner] docker_image_sha256 is not a valid SHA-256 hex digest", [])
    else
      let imageRef := m.docker_image ++ "@" ++ expectedSha
      if env.pullExit imageRef ≠ 0 then
        (Except.error ("[runner] Failed to pull image: "
          ++ takeStr 300 (env.pullStderr imageRef)), [Event.dockerPull imageRef])
      else
        (Except.ok imageRef, [Event.dockerPull imageRef])

/-- int(expected_duration_h * 3600 * 1.1): the subprocess timeout in seconds. -/
def containerTimeout (m : JobManifest) : ℤ :=
  ratTrunc (m.expected_duration_h * 3600 * onePointOne)

/-- int(ram_limit_gb * 1024 * 1024 * 1024): the hard memory limit in bytes. -/
def ramBytes (m : JobManifest) : ℤ :=
  ratTrunc (m.ram_limit_gb * 1024 * 1024 * 1024)

/-- The fixed option section of the docker run argv built by
JobRunner._run_container, before the env flags, flag for flag. -/
def envelopeOptions (m : JobManifest) (inputDir outputDir : String) : List String :=
  ["docker", "run",
   "--rm",
   "--name", gp4uName m,
   "--gpus", "device=" ++ pyIntStr m.gpu_index,
   "--memory", pyIntStr (ramBytes m),
   "--memory-swap", pyIntStr (ramBytes m),
   "--pids-limit", "512",
   "--network", "bridge",
   "--cap-drop", "ALL",
   "--security-opt", "no-new-privileges",
   "--read-only",
   "--tmpfs", "/tmp:rw,noexec,nosuid,size=1g",
   "--volume", inputDir ++ ":/input:ro",
   "--volume", outputDir ++ ":/output:rw"]

/-- The docker run argv built by JobRunner._run_container: the option
section, then the sanitized env flags, the image reference and the manifest
argv. -/
def runContainerCmd (m : JobManifest) (inputDir outputDir imageRef : String) :
    List String :=
  envelopeOptions m inputDir outputDir
  ++ buildEnvArgs m.env
  ++ [imageRef]
  ++ m.command

/-- JobRunner._run_container: launch docker run with the security envelope and
the computed timeout; on TimeoutExpired kill the container by name and return
(-1, DURATION_LIMIT_EXCEEDED); on another exception return (-1, str(e)).
The watchdog thread events happen while the container runs. -/
def runContainer (env : RunEnv) (m : JobManifest) (inputDir outputDir imageRef : String) :
    (ℤ × String) × List Event :=
  let cmd := runContainerCmd m inputDir outputDir imageRef
  let launch := Event.containerCreate cmd (containerTimeout m)
  let wdog := watchdogRun m env.watchdogTicks
  match env.outcome with
  | ContainerOutcome.exited code out err => ((code, out ++ err), launch :: wdog)
  | ContainerOutcome.timedOut =>
      ((-1, "DURATION_LIMIT_EXCEEDED"), (launch :: wdog) ++ [Event.dockerKill (gp4uName m)])
  | ContainerOutcome.errored msg => ((-1, msg), launch :: wdog)

/-- The result dict of JobRunner.run. -/
structure RunResult where
  job_id : String
  status : String
  exit_code : ℤ
  energy_kwh : ℚ
  logs : String
deriving DecidableEq, Repr

/-- JobRunner.run: verify and pull the image (an error here propagates as the
RuntimeError the source raises, with no further effect), then run the
container under the watchdog, then assemble the result record. Filesystem
scaffolding, input download and output upload have no modeled effects. -/
def runJob (env : RunEnv) (m : JobManifest) (inputDir outputDir : String) :
    Except String RunResult × List Event :=
  let pv := pullAndVerifyImage env m
  match pv.1 with
  | Except.error e => (Except.error e, pv.2)
  | Except.ok imageRef =>
      let rc := runContainer env m inputDir outputDir imageRef
      let exitCode := rc.1.1
      let status := if exitCode = 0 then "COMPLETE" else "FAILED"
      let energyKwh := energyAfter (executedPowers env.watchdogTicks) / 3600000
      (Except.ok
        { job_id := m.job_id
          status := status
          exit_code := exitCode
          energy_kwh := pyRound6 energyKwh
          logs := lastStr 5000 rc.1.2 },
       pv.2 ++ rc.2)

/-- Whether an Except value is ok (run returned) rather than error (run
raised). -/
def exceptIsOk : Except String RunResult → Bool
  | Except.ok _ => true
  | Except.error _ => false

/-- run_and_report from ProviderAgent._accept_job: call runner.run(), then
PATCH the terminal status once. If run() raises, the exception escapes the
thread body and no completion PATCH is ever attempted. -/
def runAndReport (env : RunEnv) (m : JobManifest) (inputDir outputDir : String) :
    List Event :=
  match runJob env m inputDir outputDir with
  | (Except.error _, evs) => evs
  | (Except.ok r, evs) =>
      evs ++ [Event.completionPatch r.job_id r.status r.energy_kwh]

/-- Whether an event is the completion PATCH. -/
def isCompletionPatch : Event → Bool
  | Event.completionPatch _ _ _ => true
  | _ => false

/-- Number of completion PATCHes in a trace. -/
def countPatches (evs : List Event) : ℕ :=
  (evs.filter isCompletionPatch).length

/-! Section: Supervisor admission (agent.py, ProviderAgent._accept_job) -/

/-- A wire job assignment: the two optional id fields the source probes, all
other payload fields are irrelevant to admission identity. -/
structure RawJob where
  id : Option String
  job_id : Option String
deriving DecidableEq, Repr

/-- raw.get("id") or raw.get("job_id"), then the falsiness test: a missing or
empty id falls through, and an empty final value is rejected. -/
def extractJobId (r : RawJob) : Option String :=
  let v := match r.id with
    | some s => if s ≠ "" then some s else r.job_id
    | none => r.job_id
  match v with
  | some s => if s = "" then none else some s
  | none => none

/-- Admission effects of ProviderAgent._accept_job. -/
inductive AgentEvent where
  | ack (jobId : String)
  | spawnRunner (jobId : String)
deriving DecidableEq, Repr

/-- ProviderAgent._accept_job: reject silently without any id; return silently
when the id is already active; otherwise ACK (abandoning on ACK failure) and
spawn a runner thread registered in the active map. -/
def acceptJob (active : List String) (ackOk : Bool) (r : RawJob) :
    List AgentEvent × List String :=
  match extractJobId r with
  | none => ([], active)
  | some jid =>
      if jid ∈ active then ([], active)
      else if ackOk then
        ([AgentEvent.ack jid, AgentEvent.spawnRunner jid], jid :: active)
      else
        ([AgentEvent.ack jid], active)

/-! Section: Supervisor heartbeat cadence (agent.py, ProviderAgent.run) -/

/-- One tick of the main loop counter: increment, then emit a heartbeat and
reset when the counter reaches 60 // poll_interval. -/
def heartbeatStep (p c : ℕ) : ℕ × Bool :=
  let c2 := c + 1
  if 60 / p ≤ c2 then (0, true) else (c2, false)

/-- State after n ticks of the main loop, starting from counter 0: the counter
value and the number of heartbeats emitted so far. -/
def heartbeatIter (p : ℕ) : ℕ → ℕ × ℕ
  | 0 => (0, 0)
  | n + 1 =>
      let s := heartbeatIter p n
      let r := heartbeatStep p s.1
      (r.1, s.2 + (if r.2 then 1 else 0))

/-- Ceiling division, the cadence the spec claims. -/
def ceilDiv (a b : ℕ) : ℕ :=
  (a + b - 1) / b

/-! Section: Counting helpers and the digest-pinned reference -/

/-- Number of occurrences of a in l. -/
def countEq : List String → String → ℕ
  | [], _ => 0
  | x :: xs, a => (if x = a then 1 else 0) + countEq xs a

/-- Number of adjacent occurrences of the pair (a, b) in l. -/
def pairCount : List String → String → String → ℕ
  | x :: y :: rest, a, b => (if x = a ∧ y = b then 1 else 0) + pairCount (y :: rest) a b
  | _, _, _ => 0

/-- The digest-pinned image reference image@sha256:hex that run() passes to
_run_container after verification. -/
def pinnedRef (m : JobManifest) : String :=
  m.docker_image ++ "@" ++ normDigest m

/-- The docker run invocation of the runner for a manifest, with the pinned
reference, as produced in JobRunner.run. -/
def envelopeCmd (m : JobManifest) (inputDir outputDir : String) : List String :=
  runContainerCmd m inputDir outputDir (pinnedRef m)

/-- The docker option tokens of the security envelope that claim C2 counts. -/
def dockerOptionTokens : List String :=
  ["--gpus", "--memory", "--memory-swap", "--pids-limit", "--cap-drop",
   "--security-opt", "--read-only", "--volume"]

/-- Extract the energy_kwh field of a run result, 0 if run raised. -/
def runResultEnergy : Except String RunResult → ℚ
  | Except.ok r => r.energy_kwh
  | Except.error _ => 0

/-- Extract the raised error message of a run, empty if run returned. -/
def runErrMsg : Except String RunResult → String
  | Except.ok _ => ""
  | Except.error e => e

/-! Section: Concrete inputs for witnesses and counterexamples -/

/-- A digest of the shape sha256:(64 times a). -/
def goodDigest : String :=
  String.mk ("sha256:".data ++ List.replicate 64 'a')

/-- A representative well-formed manifest. -/
def goodManifest : JobManifest :=
  { job_id := "job-0001"
    subject_id := "subj"
    gpu_id := "gpu-1"
    gpu_index := 0
    docker_image := "alpine"
    docker_image_sha256 := goodDigest
    command := ["echo", "hello"]
    env := []
    input_data_url := none
    output_bucket := "bucket"
    declared_framework := "PYTORCH"
    vram_allocated_gb := 8
    ram_limit_gb := 1
    expected_duration_h := 1
    power_cap_watts := 300 }

/-- The goodManifest with a malformed digest (scenario 2 of the spec). -/
def badDigestManifest : JobManifest :=
  { goodManifest with docker_image_sha256 := "sha256:zz" }

/-- The Python float 0.001, exactly the rational the claims reason with. -/
def smallDuration : ℚ := 1 / 1000

/-- The goodManifest with expected_duration_h = 0.001. -/
def smallDurationManifest : JobManifest :=
  { goodManifest with expected_duration_h := smallDuration }

/-- The Python float 2 to the power -31 (exactly representable), whose
product with 2 to the 30 is the non-integer 1/2. -/
def smallRam : ℚ := 1 / 2147483648

/-- The goodManifest with ram_limit_gb = 2 to the power -31. -/
def smallRamManifest : JobManifest :=
  { goodManifest with ram_limit_gb := smallRam }

/-- An environment where docker pull succeeds, the container exits 0 and no
watchdog tick occurs. -/
def trivialEnv : RunEnv :=
  { pullExit := fun _ => 0
    pullStderr := fun _ => ""
    outcome := ContainerOutcome.exited 0 "ok" ""
    watchdogTicks := [] }

/-- An environment where the container run hits the duration timeout. -/
def timeoutEnv : RunEnv :=
  { trivialEnv with outcome := ContainerOutcome.timedOut }

/-- An environment where the watchdog receives a kill signal on its second
tick while the container then exits nonzero (abrupt watchdog kill). -/
def watchdogKillEnv : RunEnv :=
  { pullExit := fun _ => 0
    pullStderr := fun _ => ""
    outcome := ContainerOutcome.exited 137 "" "killed"
    watchdogTicks := [⟨some 200, false⟩, ⟨some 210, true⟩] }

/-! Section: Helper lemmas -/

lemma ratTrunc_eq_floor (q : ℚ) (h : 0 ≤ q) : ratTrunc q = ⌊q⌋ := by
  unfold ratTrunc
  rw [Int.tdiv_eq_ediv (Rat.num_nonneg.mpr h) (by positivity)]
  exact (Rat.floor_def).symm

lemma ratTrunc_intCast (z : ℤ) : ratTrunc ((z : ℤ) : ℚ) = z := by
  unfold ratTrunc
  rw [Rat.num_intCast, Rat.den_intCast]
  exact_mod_cast Int.tdiv_one z

/-! Section: Claim C9: compute-pattern decision list -/

/-- C9: the compute-pattern classifier is a pure function implementing the
spec decision list top-down with first match winning: non-empty suspicious
list gives CRYPTO_MINING; gpu_util above 85 with outbound below 5000000 gives
TRAINING; more than 30 unique ips with gpu_util below 20 gives NETWORK_HEAVY;
gpu_util below 5 gives IDLE; otherwise INFERENCE. -/
theorem claim9_pattern_decision_list (g : ℚ) (o : ℤ) (u : ℕ) (s : List String) :
    inferPattern g o u s = inferPatternSpec g o u s ∧
    (s ≠ [] → inferPattern g o u s = "CRYPTO_MINING") ∧
    (s = [] → 85 < g → o < 5000000 → inferPattern g o u s = "TRAINING") ∧
    (s = [] → ¬ (85 < g ∧ o < 5000000) → 30 < u → g < 20 →
      inferPattern g o u s = "NETWORK_HEAVY") ∧
    (s = [] → ¬ (85 < g ∧ o < 5000000) → ¬ (30 < u ∧ g < 20) → g < 5 →
      inferPattern g o u s = "IDLE") ∧
    (s = [] → ¬ (85 < g ∧ o < 5000000) → ¬ (30 < u ∧ g < 20) → ¬ g < 5 →
      inferPattern g o u s = "INFERENCE") := by
  refine ⟨rfl, ?_, ?_, ?_, ?_, ?_⟩
  · intro h
    unfold inferPattern
    rw [if_pos h]
  · intro hs h85 ho
    unfold inferPattern
    rw [if_neg (not_not_intro hs), if_pos ⟨h85, ho⟩]
  · intro hs h1 h30 h20
    unfold inferPattern
    rw [if_neg (not_not_intro hs), if_neg h1, if_pos ⟨h30, h20⟩]
  · intro hs h1 h2 h5
    unfold inferPattern
    rw [if_neg (not_not_intro hs), if_neg h1, if_neg h2, if_pos h5]
  · intro hs h1 h2 h5
    unfold inferPattern
    rw [if_neg (not_not_intro hs), if_neg h1, if_neg h2, if_neg h5]

/-- C9 witness: the theorem applied at a concrete input. -/
theorem claim9_witness : inferPattern 90 1000 2 [] = "TRAINING" :=
  (claim9_pattern_decision_list 90 1000 2 []).2.2.1 rfl (by decide) (by decide)

/-! Section: Claim C10: suspicious destinations always empty, never CRYPTO_MINING -/

/-- C10: _is_suspicious always returns False, so every collected network
sample has an empty suspicious_destinations list, and the payload pattern
built from the collected signals is never CRYPTO_MINING. -/
theorem claim10_no_crypto_mining (conns : Option (List NetConn))
    (net prev : NetCounters) (g : ℚ) :
    (collectNetwork conns net prev).suspicious_destinations = [] ∧
    (buildPayloadPattern g (collectNetwork conns net prev)).gpu_compute_pattern
      ≠ "CRYPTO_MINING" := by
  have hempty : (collectNetwork conns net prev).suspicious_destinations = [] := by
    cases conns with
    | none => rfl
    | some cs => simp [collectNetwork, isSuspiciousIp]
  refine ⟨hempty, ?_⟩
  unfold buildPayloadPattern
  simp only [hempty]
  unfold inferPattern
  rw [if_neg (not_not_intro rfl)]
  split_ifs <;> decide

/-- C10 witness: the theorem applied at the psutil-failure sample and at zero
counters. -/
theorem claim10_witness :
    (collectNetwork none ⟨0, 0⟩ ⟨0, 0⟩).suspicious_destinations = [] :=
  (claim10_no_crypto_mining none ⟨0, 0⟩ ⟨0, 0⟩ 0).1

/-! Section: Claim C7: re-delivered active job id is a no-op -/

/-- C7: when a poll response re-delivers a job id already present in the
active map, admission performs no effect: no ACK is sent, no runner is
spawned, and the active map is unchanged. -/
theorem claim7_redelivery_noop (active : List String) (ackOk : Bool)
    (r : RawJob) (j : String) (hid : extractJobId r = some j)
    (hmem : j ∈ active) :
    acceptJob active ackOk r = ([], active) := by
  unfold acceptJob
  rw [hid]
  simp [hmem]

/-- C7 witness: re-delivery of active id j1 is a no-op. -/
theorem claim7_witness :
    acceptJob ["j1"] true { id := some "j1", job_id := none } = ([], ["j1"]) :=
  claim7_redelivery_noop ["j1"] true { id := some "j1", job_id := none } "j1"
    (by decide) (by decide)

/-! Section: Claim C6: heartbeat cadence -/

lemma succ_mod_div (K n : ℕ) (hK : 0 < K) :
    ((n + 1) % K, (n + 1) / K)
      = if K ≤ n % K + 1 then (0, n / K + 1) else (n % K + 1, n / K) := by
  have hmod : n % K < K := Nat.mod_lt n hK
  have hdm := Nat.div_add_mod n K
  by_cases h : K ≤ n % K + 1
  · have key : n + 1 = K * (n / K + 1) := by
      have hm : K * (n / K + 1) = K * (n / K) + K := by ring
      omega
    rw [if_pos h, key, Nat.mul_mod_right, Nat.mul_div_cancel_left _ hK]
  · have hlt : n % K + 1 < K := by omega
    have key : n + 1 = K * (n / K) + (n % K + 1) := by omega
    rw [if_neg h, key, Nat.mul_add_mod, Nat.mod_eq_of_lt hlt,
      Nat.mul_add_div hK, Nat.div_eq_of_lt hlt]
    simp

/-- C6 amended: with poll interval p at least 1, after n ticks of the main
loop the heartbeat counter is n modulo K and exactly n / K heartbeats have
been emitted, where K = max 1 (60 floor-divided by p): a heartbeat every
max 1 (60 // p) ticks, which differs from the claimed ceiling of 60 / p
whenever p does not divide 60 and p is less than 61. -/
theorem claim6_heartbeat_cadence (p n : ℕ) (_hp : 1 ≤ p) :
    heartbeatIter p n = (n % max 1 (60 / p), n / max 1 (60 / p)) := by
  set K := max 1 (60 / p) with hKdef
  have hK : 0 < K := le_max_left 1 (60 / p)
  induction n with
  | zero => simp [heartbeatIter]
  | succ n ih =>
      have hcond : (60 / p ≤ n % K + 1) ↔ (K ≤ n % K + 1) := by
        constructor
        · intro h
          exact max_le (Nat.succ_le_succ (Nat.zero_le _)) h
        · intro h
          exact le_trans (le_max_right 1 (60 / p)) h
      by_cases h : 60 / p ≤ n % K + 1
      · have h2 : K ≤ n % K + 1 := hcond.mp h
        simp only [heartbeatIter, ih, heartbeatStep, if_pos h, if_pos rfl]
        rw [succ_mod_div K n hK, if_pos h2]
        simp
      · have h2 : ¬ K ≤ n % K + 1 := fun hc => h (hcond.mpr hc)
        simp only [heartbeatIter, ih, heartbeatStep, if_neg h]
        rw [succ_mod_div K n hK, if_neg h2]
        simp

/-- C6 counterexample: at poll interval 7 the code emits its first heartbeat
on tick 8 (60 // 7 = 8 ticks), while the claimed cadence of ceil(60/7) = 9
ticks predicts zero heartbeats within the first 8 ticks. -/
theorem claim6_counterexample :
    (heartbeatIter 7 8).2 = 1 ∧ ceilDiv 60 7 = 9 ∧ 8 / ceilDiv 60 7 = 0 ∧
      (heartbeatIter 7 8).2 ≠ 8 / ceilDiv 60 7 := by decide

/-- C6 witness: the amended cadence theorem at p = 15, n = 9. -/
theorem claim6_witness :
    heartbeatIter 15 9 = (9 % max 1 (60 / 15), 9 / max 1 (60 / 15)) :=
  claim6_heartbeat_cadence 15 9 (by decide)

/-! Section: Claim C8: energy accumulator -/

lemma le_foldl_energy (l : List (Option ℚ)) (acc : ℚ)
    (h : ∀ s ∈ l, 0 ≤ s.getD 0) : acc ≤ l.foldl gpuSampleEnergy acc := by
  induction l generalizing acc with
  | nil => exact le_refl acc
  | cons s l ih =>
      have hstep : acc ≤ gpuSampleEnergy acc s := by
        cases s with
        | none => exact le_refl acc
        | some p =>
            have hp : (0 : ℚ) ≤ p := by simpa using h (some p) (List.mem_cons_self _ _)
            simp only [gpuSampleEnergy]
            nlinarith
      calc acc ≤ gpuSampleEnergy acc s := hstep
        _ ≤ (s :: l).foldl gpuSampleEnergy acc := by
            simpa using ih (gpuSampleEnergy acc s) (fun x hx => h x (List.mem_cons_of_mem _ hx))

lemma energyAfter_nonneg (l : List (Option ℚ)) (h : ∀ s ∈ l, 0 ≤ s.getD 0) :
    0 ≤ energyAfter l :=
  le_foldl_energy l 0 h

lemma roundHalfEven_nonneg (x : ℚ) (h : 0 ≤ x) : 0 ≤ roundHalfEven x := by
  have hf : 0 ≤ ⌊x⌋ := Int.le_floor.mpr (by exact_mod_cast h)
  unfold roundHalfEven
  split_ifs <;> omega

lemma energyAfter_append_le (A : List (Option ℚ)) (s : Option ℚ)
    (hs : 0 ≤ s.getD 0) : energyAfter A ≤ energyAfter (A ++ [s]) := by
  unfold energyAfter
  rw [List.foldl_append]
  exact le_foldl_energy [s] _ (by
    intro x hx
    rcases List.mem_singleton.mp hx with rfl
    exact hs)

lemma pyRound6_nonneg (q : ℚ) (h : 0 ≤ q) : 0 ≤ pyRound6 q := by
  unfold pyRound6
  have hx : 0 ≤ q * 1000000 := by positivity
  have := roundHalfEven_nonneg (q * 1000000) hx
  positivity

/-- C8: each successful GPU sample adds power times 10 joules to the energy
accumulator; under nonnegative power samples the accumulator is monotonically
non-decreasing across samples and the reported energy_kwh, which runJob sets
to the accumulator divided by 3600000 and rounded to 6 decimals, is
nonnegative. -/
theorem claim8_energy_accumulator :
    (∀ (ps : List (Option ℚ)) (p : ℚ),
        energyAfter (ps ++ [some p]) = energyAfter ps + p * 10) ∧
    (∀ (ps : List (Option ℚ)), (∀ s ∈ ps, 0 ≤ s.getD 0) →
        (∀ n, energyAfter (ps.take n) ≤ energyAfter (ps.take (n + 1))) ∧
        0 ≤ pyRound6 (energyAfter ps / 3600000)) ∧
    (∀ (env : RunEnv) (m : JobManifest) (i o : String),
        exceptIsOk (runJob env m i o).1 = true →
        runResultEnergy (runJob env m i o).1
          = pyRound6 (energyAfter (executedPowers env.watchdogTicks) / 3600000)) := by
  refine ⟨?_, ?_, ?_⟩
  · intro ps p
    simp [energyAfter, List.foldl_append, gpuSampleEnergy]
  · intro ps h
    constructor
    · intro n
      rw [List.take_succ]
      cases hg : ps[n]? with
      | none => simp
      | some s =>
          have hmem : s ∈ ps := List.getElem?_mem hg
          simp only [Option.toList_some]
          exact energyAfter_append_le _ s (h s hmem)
    · exact pyRound6_nonneg _ (div_nonneg (energyAfter_nonneg ps h) (by norm_num))
  · intro env m i o h
    simp only [runJob] at h ⊢
    cases hpv : (pullAndVerifyImage env m).1 with
    | error e =>
        rw [hpv] at h
        simp [exceptIsOk] at h
    | ok imageRef => simp [runResultEnergy]

/-- C8 witness: the accumulator theorem applied at concrete samples and at a
concrete run whose watchdog collects two samples. -/
theorem claim8_witness :
    energyAfter ([some 5] ++ [some 3]) = energyAfter [some 5] + 3 * 10 ∧
    0 ≤ pyRound6 (energyAfter [some 5, none] / 3600000) ∧
    runResultEnergy (runJob watchdogKillEnv goodManifest "in" "out").1
      = pyRound6 (energyAfter (executedPowers watchdogKillEnv.watchdogTicks) / 3600000) :=
  ⟨claim8_energy_accumulator.1 [some 5] 3,
   (claim8_energy_accumulator.2.1 [some 5, none] (by decide)).2,
   claim8_energy_accumulator.2.2 watchdogKillEnv goodManifest "in" "out" (by decide)⟩

/-! Section: Claim C3: environment sanitization -/

lemma nonAsciiAlnumSample_not_ascii (c : Char) (h : c.toNat < 128) :
    nonAsciiAlnumSample.contains c = false := by
  rcases Bool.eq_false_or_eq_true (nonAsciiAlnumSample.contains c) with hc | hc
  · exfalso
    have hmem : c ∈ nonAsciiAlnumSample := by simpa [List.contains] using hc
    fin_cases hmem <;> exact absurd h (by decide)
  · exact hc

lemma pyIsAlnum_ascii (c : Char) (h : c.toNat < 128) :
    pyIsAlnum c = c.isAlphanum := by
  unfold pyIsAlnum
  rw [nonAsciiAlnumSample_not_ascii c h, Bool.or_false]

/-- C3 amended: per manifest env entry, the entry is dropped exactly when the
key sanitizer leaves nothing, and otherwise --env key=value is emitted with
key filtered to characters Python treats as alphanumeric plus underscore
(only the ASCII subset [A-Za-z0-9_] when the key is ASCII; a non-ASCII
alphanumeric key character is kept as is), and with the value free of NUL,
LF and CR and at most 4096 characters long. -/
theorem claim3_env_sanitization (env : List (String × String)) (k v : String) :
    (sanitizeKey k = "" →
      buildEnvArgs ((k, v) :: env) = buildEnvArgs env) ∧
    (sanitizeKey k ≠ "" →
      buildEnvArgs ((k, v) :: env)
        = "--env" :: (sanitizeKey k ++ "=" ++ sanitizeVal v) :: buildEnvArgs env) ∧
    (∀ c ∈ (sanitizeKey k).data, pyIsAlnum c = true ∨ c = '_') ∧
    ((∀ c ∈ k.data, c.toNat < 128) →
      ∀ c ∈ (sanitizeKey k).data, (c.isAlphanum || c = '_') = true) ∧
    (∀ c ∈ (sanitizeVal v).data, c ≠ '\x00' ∧ c ≠ '\n' ∧ c ≠ '\r') ∧
    (sanitizeVal v).data.length ≤ 4096 := by
  refine ⟨?_, ?_, ?_, ?_, ?_, ?_⟩
  · intro h
    simp [buildEnvArgs, h]
  · intro h
    simp [buildEnvArgs, h]
  · intro c hc
    have hf := (List.mem_filter.mp hc).2
    rcases Bool.or_eq_true_iff.mp hf with h1 | h1
    · exact Or.inl h1
    · exact Or.inr (by simpa using h1)
  · intro hascii c hc
    have hmem := (List.mem_filter.mp hc).1
    have hf := (List.mem_filter.mp hc).2
    rw [pyIsAlnum_ascii c (hascii c hmem)] at hf
    simpa using hf
  · intro c hc
    have hmem := List.mem_of_mem_take hc
    have hf := (List.mem_filter.mp hmem).2
    simpa using hf
  · simp [sanitizeVal]

/-- C3 counterexample: the Unicode letter e-acute passes Python isalnum, so
the key survives sanitization although it is outside [A-Za-z0-9_], refuting
the claimed ASCII-only guarantee for emitted keys. -/
theorem claim3_counterexample :
    sanitizeKey "é" = "é" ∧
    buildEnvArgs [("é", "x")] = ["--env", "é=x"] ∧
    ('é'.isAlphanum || 'é' = '_') = false := by
  refine ⟨by decide, ?_, by decide⟩
  decide

/-- C3 witness: the sanitization theorem applied to a concrete entry with a
space in the key. -/
theorem claim3_witness :
    buildEnvArgs [("BAD KEY", "x")]
      = "--env" :: (sanitizeKey "BAD KEY" ++ "=" ++ sanitizeVal "x") :: buildEnvArgs [] ∧
    (sanitizeVal "x").data.length ≤ 4096 :=
  ⟨(claim3_env_sanitization [] "BAD KEY" "x").2.1 (by decide),
   (claim3_env_sanitization [] "BAD KEY" "x").2.2.2.2.2⟩

/-! Section: Claim C1: malformed digest fails before any effect -/

lemma pull_error_of_malformed (env : RunEnv) (m : JobManifest)
    (h : ¬ WellFormedDigest (normDigest m)) :
    ∃ e, pullAndVerifyImage env m = (Except.error e, []) := by
  simp only [pullAndVerifyImage]
  by_cases c1 : normDigest m = "" ∨ ¬ pyStartsWith (normDigest m) "sha256:" = true
  · rw [if_pos c1]
    exact ⟨_, rfl⟩
  · push_neg at c1
    have hs : pyStartsWith (normDigest m) "sha256:" = true := c1.2
    rw [if_neg (by push_neg; exact c1)]
    by_cases c2 : (dropStr 7 (normDigest m)).data.length = 64 ∧
        ∀ c ∈ (dropStr 7 (normDigest m)).data, c ∈ hexChars
    · exact absurd ⟨hs, c2.1, c2.2⟩ h
    · rw [if_pos c2]
      exact ⟨_, rfl⟩

/-- C1 amended: for a manifest whose digest does not match
sha256:[0-9a-f]X64 after lowercasing and stripping, run() raises the
RuntimeError from _pull_and_verify_image rather than returning a result, and
the effect trace is empty: no docker pull, no container creation and no
telemetry POST ever happen. -/
theorem claim1_malformed_digest_raises (env : RunEnv) (m : JobManifest)
    (i o : String) (h : ¬ WellFormedDigest (normDigest m)) :
    exceptIsOk (runJob env m i o).1 = false ∧ (runJob env m i o).2 = [] := by
  obtain ⟨e, hpe⟩ := pull_error_of_malformed env m h
  constructor <;> simp [runJob, hpe, exceptIsOk]

/-- C1 counterexample to the claim as stated: on the malformed digest
sha256:zz, run() does not return a FAILED result; in the model it returns the
error (the raised RuntimeError), with an empty effect trace. -/
theorem claim1_counterexample :
    runErrMsg (runJob trivialEnv badDigestManifest "in" "out").1
        = "[runner] docker_image_sha256 is not a valid SHA-256 hex digest" ∧
      exceptIsOk (runJob trivialEnv badDigestManifest "in" "out").1 = false ∧
      (runJob trivialEnv badDigestManifest "in" "out").2 = [] := by
  refine ⟨by decide, by decide, by decide⟩

/-- C1 witness: the amended theorem applied to the sha256:zz manifest. -/
theorem claim1_witness :
    exceptIsOk (runJob trivialEnv badDigestManifest "in" "out").1 = false ∧
    (runJob trivialEnv badDigestManifest "in" "out").2 = [] :=
  claim1_malformed_digest_raises trivialEnv badDigestManifest "in" "out" (by decide)

/-! Section: Claim C4: completion PATCH exactly once -/

lemma countPatches_append (a b : List Event) :
    countPatches (a ++ b) = countPatches a + countPatches b := by
  simp [countPatches, List.filter_append]

lemma countPatches_watchdogRun (m : JobManifest) (ts : List WatchTick) :
    countPatches (watchdogRun m ts) = 0 := by
  induction ts with
  | nil => rfl
  | cons t ts ih =>
      by_cases h : t.killJob
      · simp [watchdogRun, h, countPatches, isCompletionPatch]
      · simp only [watchdogRun, if_neg h]
        simpa [countPatches, isCompletionPatch] using ih

lemma countPatches_pull (env : RunEnv) (m : JobManifest) :
    countPatches (pullAndVerifyImage env m).2 = 0 := by
  simp only [pullAndVerifyImage]
  split_ifs <;> simp [countPatches, isCompletionPatch]

lemma countPatches_cons (e : Event) (l : List Event) :
    countPatches (e :: l)
      = (if isCompletionPatch e = true then 1 else 0) + countPatches l := by
  simp only [countPatches, List.filter_cons]
  split_ifs <;> simp [Nat.add_comm]

lemma countPatches_runContainer (env : RunEnv) (m : JobManifest)
    (i o ref : String) : countPatches (runContainer env m i o ref).2 = 0 := by
  simp only [runContainer]
  cases env.outcome with
  | exited c s1 s2 =>
      rw [countPatches_cons, countPatches_watchdogRun]
      simp [isCompletionPatch]
  | timedOut =>
      rw [countPatches_append, countPatches_cons, countPatches_watchdogRun]
      simp [countPatches, isCompletionPatch]
  | errored msg =>
      rw [countPatches_cons, countPatches_watchdogRun]
      simp [isCompletionPatch]

lemma countPatches_runJob (env : RunEnv) (m : JobManifest) (i o : String) :
    countPatches (runJob env m i o).2 = 0 := by
  simp only [runJob]
  cases hpv : (pullAndVerifyImage env m).1 with
  | error e =>
      have := countPatches_pull env m
      simpa using this
  | ok imageRef =>
      simp only []
      rw [countPatches_append]
      rw [countPatches_pull env m, countPatches_runContainer env m i o imageRef]

/-- C4 amended: whenever run() returns (the image verified and pulled), the
terminal status is PATCHed to the control plane exactly once, including under
an abrupt watchdog kill; but when run() raises (malformed digest or failed
pull), no completion PATCH is ever attempted, so the claimed exactly-once
reporting fails for those admitted jobs. -/
theorem claim4_completion_patch_once (env : RunEnv) (m : JobManifest)
    (i o : String) (h : exceptIsOk (runJob env m i o).1 = true) :
    countPatches (runAndReport env m i o) = 1 := by
  unfold runAndReport
  cases hr : runJob env m i o with
  | mk res evs =>
      cases res with
      | error e =>
          rw [hr] at h
          simp [exceptIsOk] at h
      | ok r =>
          have h0 : countPatches evs = 0 := by
            have := countPatches_runJob env m i o
            rw [hr] at this
            simpa using this
          rw [countPatches_append, h0]
          simp [countPatches, isCompletionPatch]

/-- C4 counterexample to the claim as stated: an admitted job with a
malformed digest produces zero completion PATCHes, not exactly one. -/
theorem claim4_counterexample :
    countPatches (runAndReport trivialEnv badDigestManifest "in" "out") = 0 := by
  decide

/-- C4 witness: exactly one PATCH in a run whose watchdog abruptly kills the
container (kill tick followed by a nonzero container exit). -/
theorem claim4_witness :
    countPatches (runAndReport watchdogKillEnv goodManifest "in" "out") = 1 :=
  claim4_completion_patch_once watchdogKillEnv goodManifest "in" "out" (by decide)

/-! Section: Claim C5: duration limit and timeout behavior -/

/-- C5 amended: the subprocess timeout is int(expected_duration_h * 3600 *
1.1), the truncation toward zero of the product (which agrees with the
claimed ceiling exactly when the product is an integer); when the timeout
expires the runner kills the container by its gp4u name and returns exit code
-1 with log body DURATION_LIMIT_EXCEEDED. -/
theorem claim5_timeout_behavior (env : RunEnv) (m : JobManifest)
    (i o ref : String) :
    (∀ z : ℤ, m.expected_duration_h * 3600 * onePointOne = (z : ℚ) →
        containerTimeout m = z) ∧
    (env.outcome = ContainerOutcome.timedOut →
      (runContainer env m i o ref).1 = (-1, "DURATION_LIMIT_EXCEEDED") ∧
      Event.dockerKill (gp4uName m) ∈ (runContainer env m i o ref).2 ∧
      Event.containerCreate (runContainerCmd m i o ref) (containerTimeout m)
        ∈ (runContainer env m i o ref).2) := by
  constructor
  · intro z hz
    unfold containerTimeout
    rw [hz, ratTrunc_intCast]
  · intro h
    refine ⟨?_, ?_, ?_⟩ <;> simp [runContainer, h]

/-- C5 counterexample to the claim as stated: with expected_duration_h =
0.001 the product is 3.96 seconds; the code truncates to 3 while the claimed
ceiling is 4. -/
theorem claim5_counterexample :
    containerTimeout smallDurationManifest = 3 ∧
    ⌈smallDurationManifest.expected_duration_h * 3600 * onePointOne⌉ = 4 := by
  have hq : smallDurationManifest.expected_duration_h * 3600 * onePointOne
      = 396 / 100 := by
    norm_num [smallDurationManifest, smallDuration, onePointOne]
  constructor
  · unfold containerTimeout
    rw [hq, ratTrunc_eq_floor _ (by norm_num)]
    norm_num [Int.floor_eq_iff]
  · rw [hq, Int.ceil_eq_iff]
    constructor <;> push_cast <;> norm_num

/-- C5 witness: the timeout branch of the theorem at a concrete environment
that expires the duration limit. -/
theorem claim5_witness :
    (runContainer timeoutEnv goodManifest "in" "out" "ref").1
        = (-1, "DURATION_LIMIT_EXCEEDED") ∧
    Event.dockerKill (gp4uName goodManifest)
      ∈ (runContainer timeoutEnv goodManifest "in" "out" "ref").2 :=
  ⟨((claim5_timeout_behavior timeoutEnv goodManifest "in" "out" "ref").2 rfl).1,
   ((claim5_timeout_behavior timeoutEnv goodManifest "in" "out" "ref").2 rfl).2.1⟩

/-! Section: Claim C2: container security envelope -/

lemma append_ne_of_head (p x t : String) (c d : Char) (hp : p.data.head? = some c)
    (ht : t.data.head? = some d) (hne : c ≠ d) : p ++ x ≠ t := by
  intro he
  have h1 : (p ++ x).data.head? = some c := by
    rw [String.data_append]
    cases hp0 : p.data with
    | nil => rw [hp0] at hp; simp at hp
    | cons a l => rw [hp0] at hp; simp at hp; simp [hp0, hp]
  rw [he, ht] at h1
  simp at h1
  exact hne h1.symm

lemma ne_of_mem_right_append (x suf t : String) (c : Char) (hc : c ∈ suf.data)
    (ht : c ∉ t.data) : x ++ suf ≠ t := by
  intro he
  apply ht
  rw [← he, String.data_append]
  exact List.mem_append_right _ hc

lemma natDigitsRevAux_digits (fuel : ℕ) :
    ∀ (n : ℕ) (c : Char), c ∈ natDigitsRevAux fuel n → c.isDigit = true := by
  induction fuel with
  | zero => intro n c hc; simp [natDigitsRevAux] at hc
  | succ fuel ih =>
      intro n c hc
      cases n with
      | zero => simp [natDigitsRevAux] at hc
      | succ k =>
          simp only [natDigitsRevAux, List.mem_cons] at hc
          rcases hc with hc | hc
          · subst hc
            have hlt : (k + 1) % 10 < 10 := Nat.mod_lt _ (by decide)
            unfold decDigit
            interval_cases h : (k + 1) % 10 <;> decide
          · exact ih ((k + 1) / 10) c hc

lemma natStr_digits (n : ℕ) (c : Char) (hc : c ∈ natStr n) : c.isDigit = true := by
  unfold natStr at hc
  split_ifs at hc
  · rcases List.mem_singleton.mp hc with rfl
    decide
  · exact natDigitsRevAux_digits n n c (List.mem_reverse.mp hc)

lemma pyIntStr_ne_ddash (i : ℤ) (t : List Char) :
    (pyIntStr i).data ≠ '-' :: '-' :: t := by
  unfold pyIntStr
  split_ifs with h
  · intro he
    simp only [String.mk] at he
    have h2 : natStr (-i).toNat = '-' :: t := by
      have := congrArg List.tail he
      simpa using this
    have : ('-' : Char) ∈ natStr (-i).toNat := by rw [h2]; exact List.mem_cons_self _ _
    have := natStr_digits _ _ this
    simp at this
  · intro he
    simp only [String.mk] at he
    have : ('-' : Char) ∈ natStr i.toNat := by rw [he]; exact List.mem_cons_self _ _
    have := natStr_digits _ _ this
    simp at this

lemma pyIntStr_ne_token (i : ℤ) (t : String) (r : List Char)
    (ht : t.data = '-' :: '-' :: r) : pyIntStr i ≠ t := by
  intro he
  exact pyIntStr_ne_ddash i r (by rw [he, ht])

lemma gp4uName_ne_token (m : JobManifest) (t : String)
    (ht : t.data.head? = some '-') : gp4uName m ≠ t := by
  unfold gp4uName
  exact append_ne_of_head _ _ _ 'g' '-' rfl ht (by decide)

lemma buildEnvArgs_mem (e : List (String × String)) (a : String)
    (ha : a ∈ buildEnvArgs e) : a = "--env" ∨ '=' ∈ a.data := by
  induction e with
  | nil => simp [buildEnvArgs] at ha
  | cons kv rest ih =>
      obtain ⟨k, v⟩ := kv
      by_cases h : sanitizeKey k = ""
      · rw [buildEnvArgs, if_pos h] at ha
        exact ih ha
      · rw [buildEnvArgs, if_neg h] at ha
        rcases List.mem_cons.mp ha with rfl | ha2
        · exact Or.inl rfl
        · rcases List.mem_cons.mp ha2 with rfl | ha3
          · right
            rw [String.data_append, String.data_append]
            exact List.mem_append_left _ (List.mem_append_right _ (by decide))
          · exact ih ha3

lemma countEq_append (l1 l2 : List String) (t : String) :
    countEq (l1 ++ l2) t = countEq l1 t + countEq l2 t := by
  induction l1 with
  | nil => simp [countEq]
  | cons x xs ih => simp [countEq, ih]; omega

lemma countEq_eq_zero (l : List String) (t : String)
    (h : ∀ a ∈ l, a ≠ t) : countEq l t = 0 := by
  induction l with
  | nil => rfl
  | cons x xs ih =>
      rw [countEq, if_neg (h x (List.mem_cons_self _ _))]
      simpa using ih (fun a ha => h a (List.mem_cons_of_mem _ ha))

lemma ne_of_mem_data (s t : String) (c : Char) (hc : c ∈ s.data)
    (ht : c ∉ t.data) : s ≠ t :=
  fun he => ht (he ▸ hc)

lemma countEq_envelopeOptions (m : JobManifest) (i o : String) (t : String)
    (htok : t ∈ dockerOptionTokens) :
    countEq (envelopeOptions m i o) t = if t = "--volume" then 2 else 1 := by
  have hthead : t.data.head? = some '-' := by fin_cases htok <;> rfl
  have htdd : ∃ r, t.data = '-' :: '-' :: r := by fin_cases htok <;> exact ⟨_, rfl⟩
  have htnocolon : ':' ∉ t.data := by fin_cases htok <;> decide
  obtain ⟨r, htr⟩ := htdd
  have hname := gp4uName_ne_token m t hthead
  have hdev : ("device=" ++ pyIntStr m.gpu_index) ≠ t :=
    append_ne_of_head _ _ t 'd' '-' rfl hthead (by decide)
  have hmem := pyIntStr_ne_token (ramBytes m) t r htr
  have hiv : (i ++ ":/input:ro") ≠ t := by
    refine ne_of_mem_data _ _ ':' ?_ htnocolon
    rw [String.data_append]
    exact List.mem_append_right _ (by decide)
  have hov : (o ++ ":/output:rw") ≠ t := by
    refine ne_of_mem_data _ _ ':' ?_ htnocolon
    rw [String.data_append]
    exact List.mem_append_right _ (by decide)
  fin_cases htok <;>
    simp [envelopeOptions, countEq, hname, hdev, hmem, hiv, hov]

lemma countEq_envelopeCmd (m : JobManifest) (i o : String)
    (hcmd : ∀ s ∈ m.command, s ∉ dockerOptionTokens) (t : String)
    (htok : t ∈ dockerOptionTokens) :
    countEq (envelopeCmd m i o) t = if t = "--volume" then 2 else 1 := by
  have htenv : t ≠ "--env" := by fin_cases htok <;> decide
  have hteq : '=' ∉ t.data := by fin_cases htok <;> decide
  have htat : '@' ∉ t.data := by fin_cases htok <;> decide
  have henv : countEq (buildEnvArgs m.env) t = 0 := by
    apply countEq_eq_zero
    intro a ha
    rcases buildEnvArgs_mem m.env a ha with rfl | hmem2
    · exact Ne.symm htenv
    · exact ne_of_mem_data _ _ '=' hmem2 hteq
  have href : countEq [pinnedRef m] t = 0 := by
    apply countEq_eq_zero
    intro a ha
    rcases List.mem_singleton.mp ha with rfl
    refine ne_of_mem_data _ _ '@' ?_ htat
    unfold pinnedRef
    rw [String.data_append, String.data_append]
    exact List.mem_append_left _ (List.mem_append_right _ (by decide))
  have hcommand : countEq m.command t = 0 :=
    countEq_eq_zero _ _ (fun a ha he => hcmd a ha (he ▸ htok))
  unfold envelopeCmd runContainerCmd
  rw [countEq_append, countEq_append, countEq_append, henv, href, hcommand,
    countEq_envelopeOptions m i o t htok]
  simp

/-- C2 amended: the invocation built by the runner contains exactly one
--gpus device=(gpu_index), exactly one --memory whose value is
int(ram_limit_gb * 2 pow 30) (the truncation; equal to ram_limit_gb * 2 pow
30 whenever that product is an integer), --memory-swap with the same value,
exactly one --pids-limit 512, --cap-drop ALL, --security-opt
no-new-privileges, --read-only, the input directory bound read-only at
/input and the output directory bound read-write at /output, provided the
manifest argv (appended verbatim after the image reference) contains none of
the option tokens. -/
theorem claim2_security_envelope (m : JobManifest) (i o : String)
    (hcmd : ∀ s ∈ m.command, s ∉ dockerOptionTokens) :
    countEq (envelopeCmd m i o) "--gpus" = 1 ∧
    (∃ a b, envelopeCmd m i o
      = a ++ "--gpus" :: ("device=" ++ pyIntStr m.gpu_index) :: b) ∧
    countEq (envelopeCmd m i o) "--memory" = 1 ∧
    (∃ a b, envelopeCmd m i o = a ++ "--memory" :: pyIntStr (ramBytes m) :: b) ∧
    countEq (envelopeCmd m i o) "--memory-swap" = 1 ∧
    (∃ a b, envelopeCmd m i o
      = a ++ "--memory-swap" :: pyIntStr (ramBytes m) :: b) ∧
    (∀ z : ℤ, m.ram_limit_gb * 2 ^ 30 = (z : ℚ) → ramBytes m = z) ∧
    countEq (envelopeCmd m i o) "--pids-limit" = 1 ∧
    (∃ a b, envelopeCmd m i o = a ++ "--pids-limit" :: "512" :: b) ∧
    countEq (envelopeCmd m i o) "--cap-drop" = 1 ∧
    (∃ a b, envelopeCmd m i o = a ++ "--cap-drop" :: "ALL" :: b) ∧
    countEq (envelopeCmd m i o) "--security-opt" = 1 ∧
    (∃ a b, envelopeCmd m i o = a ++ "--security-opt" :: "no-new-privileges" :: b) ∧
    countEq (envelopeCmd m i o) "--read-only" = 1 ∧
    countEq (envelopeCmd m i o) "--volume" = 2 ∧
    (∃ a b, envelopeCmd m i o
      = a ++ "--volume" :: (i ++ ":/input:ro")
          :: "--volume" :: (o ++ ":/output:rw") :: b) := by
  have hc := countEq_envelopeCmd m i o hcmd
  have e1 : ∃ a b, envelopeCmd m i o
      = a ++ "--gpus" :: ("device=" ++ pyIntStr m.gpu_index) :: b :=
    ⟨["docker", "run", "--rm", "--name", gp4uName m], _, rfl⟩
  have e2 : ∃ a b, envelopeCmd m i o
      = a ++ "--memory" :: pyIntStr (ramBytes m) :: b :=
    ⟨["docker", "run", "--rm", "--name", gp4uName m,
      "--gpus", "device=" ++ pyIntStr m.gpu_index], _, rfl⟩
  have e3 : ∃ a b, envelopeCmd m i o
      = a ++ "--memory-swap" :: pyIntStr (ramBytes m) :: b :=
    ⟨["docker", "run", "--rm", "--name", gp4uName m,
      "--gpus", "device=" ++ pyIntStr m.gpu_index,
      "--memory", pyIntStr (ramBytes m)], _, rfl⟩
  have e4 : ∃ a b, envelopeCmd m i o = a ++ "--pids-limit" :: "512" :: b :=
    ⟨["docker", "run", "--rm", "--name", gp4uName m,
      "--gpus", "device=" ++ pyIntStr m.gpu_index,
      "--memory", pyIntStr (ramBytes m),
      "--memory-swap", pyIntStr (ramBytes m)], _, rfl⟩
  have e5 : ∃ a b, envelopeCmd m i o = a ++ "--cap-drop" :: "ALL" :: b :=
    ⟨["docker", "run", "--rm", "--name", gp4uName m,
      "--gpus", "device=" ++ pyIntStr m.gpu_index,
      "--memory", pyIntStr (ramBytes m),
      "--memory-swap", pyIntStr (ramBytes m),
      "--pids-limit", "512", "--network", "bridge"], _, rfl⟩
  have e6 : ∃ a b, envelopeCmd m i o
      = a ++ "--security-opt" :: "no-new-privileges" :: b :=
    ⟨["docker", "run", "--rm", "--name", gp4uName m,
      "--gpus", "device=" ++ pyIntStr m.gpu_index,
      "--memory", pyIntStr (ramBytes m),
      "--memory-swap", pyIntStr (ramBytes m),
      "--pids-limit", "512", "--network", "bridge",
      "--cap-drop", "ALL"], _, rfl⟩
  have e7 : ∃ a b, envelopeCmd m i o
      = a ++ "--volume" :: (i ++ ":/input:ro")
          :: "--volume" :: (o ++ ":/output:rw") :: b :=
    ⟨["docker", "run", "--rm", "--name", gp4uName m,
      "--gpus", "device=" ++ pyIntStr m.gpu_index,
      "--memory", pyIntStr (ramBytes m),
      "--memory-swap", pyIntStr (ramBytes m),
      "--pids-limit", "512", "--network", "bridge",
      "--cap-drop", "ALL", "--security-opt", "no-new-privileges",
      "--read-only", "--tmpfs", "/tmp:rw,noexec,nosuid,size=1g"], _, rfl⟩
  have hz : ∀ z : ℤ, m.ram_limit_gb * 2 ^ 30 = (z : ℚ) → ramBytes m = z := by
    intro z hzz
    unfold ramBytes
    have h2 : m.ram_limit_gb * 1024 * 1024 * 1024 = ((z : ℤ) : ℚ) := by
      rw [← hzz]
      norm_num
      ring
    rw [h2, ratTrunc_intCast]
  exact ⟨by simpa using hc "--gpus" (by decide), e1,
    by simpa using hc "--memory" (by decide), e2,
    by simpa using hc "--memory-swap" (by decide), e3, hz,
    by simpa using hc "--pids-limit" (by decide), e4,
    by simpa using hc "--cap-drop" (by decide), e5,
    by simpa using hc "--security-opt" (by decide), e6,
    by simpa using hc "--read-only" (by decide),
    by simpa using hc "--volume" (by decide), e7⟩

/-- C2 counterexample to the claim as stated: with ram_limit_gb equal to the
float 2 pow -31, the --memory value emitted is 0 (truncation of 1/2), which
is not equal to ram_limit_gb * 2 pow 30 = 1/2. -/
theorem claim2_counterexample :
    ramBytes smallRamManifest = 0 ∧
    smallRamManifest.ram_limit_gb * 2 ^ 30 ≠ ((0 : ℤ) : ℚ) ∧
    pairCount (envelopeCmd smallRamManifest "in" "out") "--memory" "0" = 1 := by
  have hram : ramBytes smallRamManifest = 0 := by
    have h1 : smallRamManifest.ram_limit_gb * 1024 * 1024 * 1024 = 1 / 2 := by
      norm_num [smallRamManifest, smallRam]
    unfold ramBytes
    rw [h1, ratTrunc_eq_floor _ (by norm_num)]
    norm_num [Int.floor_eq_iff]
  refine ⟨hram, ?_, ?_⟩
  · norm_num [smallRamManifest, smallRam]
  · unfold envelopeCmd runContainerCmd envelopeOptions
    rw [hram]
    decide

/-- C2 witness: envelope counts for a concrete manifest whose argv is free of
option tokens. -/
theorem claim2_witness :
    countEq (envelopeCmd goodManifest "in" "out") "--gpus" = 1 ∧
    countEq (envelopeCmd goodManifest "in" "out") "--read-only" = 1 ∧
    countEq (envelopeCmd goodManifest "in" "out") "--volume" = 2 :=
  ⟨(claim2_security_envelope goodManifest "in" "out" (by decide)).1,
   (claim2_security_envelope goodManifest "in" "out"
      (by decide)).2.2.2.2.2.2.2.2.2.2.2.2.2.1,
   (claim2_security_envelope goodManifest "in" "out"
      (by decide)).2.2.2.2.2.2.2.2.2.2.2.2.2.2.1⟩

end GP4U
